import Mathlib

/-!
Verification development for the CIAlign curation pipeline core
(`CIAlign.py`): the alignment loader, sequence-type detector,
degeneracy guard, position/name tracker, pipeline orchestrator and
output reconciler are embedded shallowly as executable Lean functions,
and the behavioural properties of the specification are proved or
refuted against them.

An alignment matrix is a list of rows, each row a list of residue
characters, exactly as the Python code builds `seqs` before handing it
to `np.array`.
-/

namespace CIAlign

/-- An alignment matrix: one list of characters per sequence row. -/
abbrev Mat := List (List Char)

/-! ## Sequence-Type Detector (`seqType`)

The detector inspects the first row only.  Each residue is upper-cased
and tested against the nucleotide symbol set and the amino-acid symbol
set; the Python code uses three independent `if` statements, so a
residue occurring in both sets increments both the `n` and the `a`
bucket.  The symbol sets themselves come from the external
`consensusSeq` collaborator and are passed here as parameters. -/

/-- Bucket counting of `seqType` (`CIAlign.py` lines 87-94): for each
residue `s` of the row, after upper-casing, `n` is incremented when
`s` is in `nucs`, `a` is incremented when `s` is in `aas`, and `x` is
incremented when `s` is in neither.  The three tests are independent
`if` statements, not an `if`/`elif` chain. -/
def countBuckets : List Char → Finset Char → Finset Char → Nat × Nat × Nat
  | [], _, _ => (0, 0, 0)
  | c :: rest, nucs, aas =>
    let s := c.toUpper
    let r := countBuckets rest nucs aas
    (r.1 + (if s ∈ nucs then 1 else 0),
     r.2.1 + (if s ∈ aas then 1 else 0),
     r.2.2 + (if s ∉ aas ∧ s ∉ nucs then 1 else 0))

/-- The detected alignment alphabet. -/
inductive SeqKind where
  | nt
  | aa
deriving DecidableEq, Repr

/-- Decision rule of `seqType` (`CIAlign.py` lines 95-101) on the
bucket counts: `if n == max(counts): return "nt" elif a == max(counts):
return "aa" else: raise RuntimeError(...)`.  `none` models the raised
classification error. -/
def seqTypeOfCounts (n a x : Nat) : Option SeqKind :=
  let m := max n (max a x)
  if n = m then some SeqKind.nt
  else if a = m then some SeqKind.aa
  else none

/-- The full detector: count the three buckets over the first row, then
apply the decision rule.  The empty matrix is not a concern here: the
Python code would fail on `arr[0]` before reaching the counts. -/
def seqType (arr : Mat) (nucs aas : Finset Char) : Option SeqKind :=
  let r := countBuckets (arr.headI) nucs aas
  seqTypeOfCounts r.1 r.2.1 r.2.2

/-! ## Position/Name Tracker -/

/-- `updateNams` (`CIAlign.py` lines 104-109): keep, in order, those
names of `nams` that are not in `removed_seqs`. -/
def updateNams : List String → Finset String → List String
  | [], _ => []
  | nam :: rest, removed_seqs =>
    if nam ∉ removed_seqs then nam :: updateNams rest removed_seqs
    else updateNams rest removed_seqs

/-- The tracker state threaded through `main`: the current name list,
the accumulated removed-sequence names, the surviving original column
indices (`relativePositions`) and the accumulated removed original
column indices (`removed_cols`). -/
structure TrackerState where
  names : List String
  removedSeqs : Finset String
  posMap : List Nat
  removedCols : Finset Nat
deriving DecidableEq

/-- Sequence removal bookkeeping as performed in `main`
(e.g. `CIAlign.py` lines 351-352): the removed set is unioned into
`removed_seqs` and the name list is filtered with `updateNams`. -/
def dropSequences (r : Finset String) (st : TrackerState) : TrackerState :=
  { st with
    names := updateNams st.names r,
    removedSeqs := st.removedSeqs ∪ r }

/-- Modelled from the spec: column removal bookkeeping.  The narrowing
of `relativePositions` happens inside the external stage collaborators
(`removeInsertions`, `removeGapOnly`), whose code is not part of this
repository snapshot; following section 4.4 of the specification the
position map keeps, in order, the entries not in the removal set.  The
union into `removed_cols` is the literal `CIAlign.py` line 369. -/
def dropColumns (r : Finset Nat) (st : TrackerState) : TrackerState :=
  { st with
    posMap := st.posMap.filter (fun c => c ∉ r),
    removedCols := st.removedCols ∪ r }

/-! ## Output Reconciler (`writeOutfile`) -/

/-- The loop of `writeOutfile` (`CIAlign.py` lines 64-71) with row
cursor `i`: a name not in `removed` is emitted with the row `arr[i]`
(joined to a string) and the cursor advances; a name in `removed` is
appended to the removal report and the cursor stays.  `none` models the
`IndexError` raised by an out-of-bounds `arr[i]`. -/
def writeOutfileGo (arr : Mat) (removed : Finset String) :
    List String → Nat → Option (List (String × String) × List String)
  | [], _ => some ([], [])
  | nam :: rest, i =>
    if nam ∉ removed then
      match arr[i]? with
      | none => none
      | some row =>
        match writeOutfileGo arr removed rest (i + 1) with
        | none => none
        | some r => some ((nam, String.mk row) :: r.1, r.2)
    else
      match writeOutfileGo arr removed rest i with
      | none => none
      | some r => some (r.1, nam :: r.2)

/-- `writeOutfile` (`CIAlign.py` lines 57-74): the emitted records in
order, and the removal report (present only when a report file is
given, and starting with the fixed header line). -/
def writeOutfile (arr : Mat) (nams : List String) (removed : Finset String)
    (rmfileGiven : Bool) : Option (List (String × String) × Option (List String)) :=
  match writeOutfileGo arr removed nams 0 with
  | none => none
  | some r =>
    some (r.1, if rmfileGiven then some ("Removed sequences:" :: r.2) else none)

/-! ## numpy shape model

`np.array` applied to a list of equal-length rows yields a 2-d array of
shape `(k, L)`; applied to a ragged list of rows it yields a 1-d object
array of shape `(k,)`; applied to the empty list it yields shape `(0,)`.
`np.size` is the product of the shape. -/

/-- Shape of `np.array(rows)` for a list of character rows. -/
def npShape : Mat → List Nat
  | [] => [0]
  | r :: rs =>
    if rs.all (fun x => x.length == r.length) then [rs.length + 1, r.length]
    else [rs.length + 1]

/-- `np.size`: the product of the shape. -/
def npSize (arr : Mat) : Nat := (npShape arr).prod

/-- Whether the rows are genuinely of unequal lengths. -/
def isRagged : Mat → Bool
  | [] => false
  | r :: rs => !(rs.all (fun x => x.length == r.length))

/-! ## Degeneracy Guard (`checkArrLength`) -/

/-- Outcome of one guard invocation. -/
inductive GuardResult where
  | ok
  | emptyAlignment
  | ragged
  | writeCrash
deriving DecidableEq, Repr

/-- `checkArrLength` (`CIAlign.py` lines 112-117), faithful to the
source order: first, if `0 in np.shape(arr)`, write the current output
via the reconciler and raise the empty-alignment error; second, if the
shape is one-dimensional, raise the ragged-alignment error.  The first
component records the write performed by the reconciler, `none` when no
write happened; `writeCrash` models the `IndexError` the reconciler
itself raises when the empty matrix has fewer rows than surviving
names. -/
def checkArrLength (arr : Mat) (orig_nams : List String)
    (removed_seqs : Finset String) :
    Option (List (String × String) × Option (List String)) × GuardResult :=
  if 0 ∈ npShape arr then
    match writeOutfile arr orig_nams removed_seqs true with
    | none => (none, GuardResult.writeCrash)
    | some w => (some w, GuardResult.emptyAlignment)
  else if (npShape arr).length = 1 then (none, GuardResult.ragged)
  else (none, GuardResult.ok)

/-- Modelled from the spec: the guard with section 4.3 evaluation
order, raggedness (rows not all of equal length) first, degeneracy
second.  Used only to compare against the source-order definition
`checkArrLength`. -/
def checkArrLengthSpecOrder (arr : Mat) (orig_nams : List String)
    (removed_seqs : Finset String) :
    Option (List (String × String) × Option (List String)) × GuardResult :=
  if isRagged arr then (none, GuardResult.ragged)
  else if 0 ∈ npShape arr then
    match writeOutfile arr orig_nams removed_seqs true with
    | none => (none, GuardResult.writeCrash)
    | some w => (some w, GuardResult.emptyAlignment)
  else (none, GuardResult.ok)

/-! ## Alignment Loader (`FastaToArray`)

The Python loop keeps a string sentinel `seq = ""` until the first
header line rebinds it to a list.  A residue line encountered while the
sentinel is still a string runs `seq += list(line)`, which raises a
`TypeError` (string plus list); a line that strips to the empty string
raises an `IndexError` at `line[0]`.  The sentinel record (the empty
string paired with the empty name) is appended at the first header, or
at the final append when no header occurred, and dropped again by the
trailing `seqs[1:]` / `nams[1:]`. -/

/-- Runtime errors the loader loop can raise. -/
inductive LoadError where
  | typeError
  | indexError
deriving DecidableEq, Repr

/-- Python `str.strip()`: remove whitespace from both ends. -/
def pyStrip (s : String) : String :=
  String.mk (((s.toList.dropWhile Char.isWhitespace).reverse.dropWhile
    Char.isWhitespace).reverse)

/-- Python `line.replace(">", "")`: remove every occurrence of the
record-start marker. -/
def stripMarker (s : String) : String :=
  String.mk (s.toList.filter (fun c => c ≠ '>'))

/-- The loop of `FastaToArray` (`CIAlign.py` lines 42-52).  `seqState`
is `none` while the accumulator is still the string sentinel and
`some l` once a header has rebound it to a list; `recs`/`nams` hold the
records already closed, with the sentinel record already dropped (this
models the final `seqs[1:]` / `nams[1:]`). -/
def fastaLoop : List String → Option (List Char) → String →
    List (List Char) → List String →
    Except LoadError (List (List Char) × List String)
  | [], seqState, nam, recs, nams =>
    match seqState with
    | none => Except.ok (recs, nams)
    | some l => Except.ok (recs ++ [l], nams ++ [nam])
  | line :: rest, seqState, nam, recs, nams =>
    match (pyStrip line).toList with
    | [] => Except.error LoadError.indexError
    | c :: cs =>
      if c = '>' then
        match seqState with
        | none =>
          fastaLoop rest (some []) (stripMarker (pyStrip line)) recs nams
        | some l =>
          fastaLoop rest (some []) (stripMarker (pyStrip line))
            (recs ++ [l]) (nams ++ [nam])
      else
        match seqState with
        | none => Except.error LoadError.typeError
        | some l => fastaLoop rest (some (l ++ c :: cs)) nam recs nams

/-- `FastaToArray` (`CIAlign.py` lines 20-54) on the list of input
lines: the matrix of residue rows and the name list, in file order. -/
def FastaToArray (lines : List String) :
    Except LoadError (List (List Char) × List String) :=
  fastaLoop lines none "" [] []

/-- `relativePositions = list(range(0, len(orig_arr[0])))`
(`CIAlign.py` line 314).  `none` models the `IndexError` raised when
the loaded matrix has no rows at all. -/
def initRelativePositions (arr : Mat) : Option (List Nat) :=
  match arr with
  | [] => none
  | r :: _ => some (List.range r.length)

/-! ## Pipeline Orchestrator (`main`, lines 332-392 and 479)

The five trimming-stage blocks of `main` are modelled faithfully; the
trimming stages themselves (`cropEnds`, `removeBadlyAligned`,
`removeInsertions`, `removeTooShort`, `removeGapOnly`) are external
collaborators whose code is not part of this repository snapshot, so
they enter the model as function parameters.  Modelled from the spec:
the column-removing collaborators narrow `relativePositions` in place
to the entries not in their returned removal set (section 4.4); here
the orchestrator performs that filtering at the call site.  The
similarity-matrix, plotting, consensus and logo blocks do not touch the
pipeline state or the main output file and are outside this model. -/

/-- Observable events of a pipeline run, in order. -/
inductive PipeEvent where
  | stageRun (stage : String)
  | logEmptyError
  | writeMain (records : List (String × String)) (report : Option (List String))
  | writeCrashed
deriving DecidableEq, Repr

/-- How a pipeline run ends. -/
inductive PipeOutcome where
  | finished
  | exited
  | emptyAlignmentError
  | raggedError
  | crashed
deriving DecidableEq, Repr

/-- The mutable state of `main` during the trimming pipeline, plus the
event trace. -/
structure PState where
  arr : Mat
  nams : List String
  removedSeqs : Finset String
  removedCols : Finset Nat
  posMap : List Nat
  events : List PipeEvent
deriving DecidableEq

/-- The five optional stages as external collaborators: each consumes
the current matrix (and name list or position map) and returns the new
matrix together with its removal record. -/
structure StageBehaviors where
  crop : Mat → List String → Mat
  badly : Mat → List String → Mat × Finset String
  insertions : Mat → List Nat → Mat × Finset Nat
  short : Mat → List String → Mat × Finset String
  gaponly : Mat → List Nat → Mat × Finset Nat

/-- The stage enable flags of the configuration surface. -/
structure PipeConfig where
  crop_ends : Bool
  remove_badlyaligned : Bool
  remove_insertions : Bool
  remove_short : Bool
  remove_gaponly : Bool

/-- One guard invocation inside the pipeline: append the write events
the guard performs and abort on a non-ok result. -/
def guardStep (orig_nams : List String) (st : PState) :
    Except (PState × PipeOutcome) PState :=
  match checkArrLength st.arr orig_nams st.removedSeqs with
  | (_, GuardResult.ok) => Except.ok st
  | (some w, GuardResult.emptyAlignment) =>
    Except.error ({ st with events := st.events ++ [PipeEvent.writeMain w.1 w.2] },
      PipeOutcome.emptyAlignmentError)
  | (_, GuardResult.emptyAlignment) =>
    Except.error (st, PipeOutcome.emptyAlignmentError)
  | (_, GuardResult.ragged) => Except.error (st, PipeOutcome.raggedError)
  | (_, GuardResult.writeCrash) =>
    Except.error ({ st with events := st.events ++ [PipeEvent.writeCrashed] },
      PipeOutcome.crashed)

/-- The `crop_ends` block (`CIAlign.py` lines 334-344): run the stage,
and on an emptied matrix log the empty-alignment message and exit
without writing; otherwise invoke the guard. -/
def cropBlock (cfg : PipeConfig) (beh : StageBehaviors)
    (orig_nams : List String) (st : PState) :
    Except (PState × PipeOutcome) PState :=
  if cfg.crop_ends then
    let arr2 := beh.crop st.arr st.nams
    let st := { st with arr := arr2,
                        events := st.events ++ [PipeEvent.stageRun "crop_ends"] }
    if npSize arr2 = 0 then
      Except.error ({ st with events := st.events ++ [PipeEvent.logEmptyError] },
        PipeOutcome.exited)
    else guardStep orig_nams st
  else Except.ok st

/-- The `remove_badlyaligned` block (`CIAlign.py` lines 346-353): run
the stage, union the removed names, filter the name list, then invoke
the guard.  This block has no emptied-matrix exit of its own. -/
def badlyBlock (cfg : PipeConfig) (beh : StageBehaviors)
    (orig_nams : List String) (st : PState) :
    Except (PState × PipeOutcome) PState :=
  if cfg.remove_badlyaligned then
    let res := beh.badly st.arr st.nams
    let st := { st with arr := res.1,
                        removedSeqs := st.removedSeqs ∪ res.2,
                        nams := updateNams st.nams res.2,
                        events := st.events ++ [PipeEvent.stageRun "remove_badlyaligned"] }
    guardStep orig_nams st
  else Except.ok st

/-- The `remove_insertions` block (`CIAlign.py` lines 355-370): run the
stage (which narrows the position map), exit on an emptied matrix, else
union the removed original column indices and invoke the guard. -/
def insertionsBlock (cfg : PipeConfig) (beh : StageBehaviors)
    (orig_nams : List String) (st : PState) :
    Except (PState × PipeOutcome) PState :=
  if cfg.remove_insertions then
    let res := beh.insertions st.arr st.posMap
    let st := { st with arr := res.1,
                        posMap := st.posMap.filter (fun c => c ∉ res.2),
                        events := st.events ++ [PipeEvent.stageRun "remove_insertions"] }
    if npSize res.1 = 0 then
      Except.error ({ st with events := st.events ++ [PipeEvent.logEmptyError] },
        PipeOutcome.exited)
    else
      guardStep orig_nams { st with removedCols := st.removedCols ∪ res.2 }
  else Except.ok st

/-- The `remove_short` block (`CIAlign.py` lines 372-381): run the
stage, exit on an emptied matrix (before any bookkeeping), else union
the removed names, filter the name list and invoke the guard. -/
def shortBlock (cfg : PipeConfig) (beh : StageBehaviors)
    (orig_nams : List String) (st : PState) :
    Except (PState × PipeOutcome) PState :=
  if cfg.remove_short then
    let res := beh.short st.arr st.nams
    let st := { st with arr := res.1,
                        events := st.events ++ [PipeEvent.stageRun "remove_short"] }
    if npSize res.1 = 0 then
      Except.error ({ st with events := st.events ++ [PipeEvent.logEmptyError] },
        PipeOutcome.exited)
    else
      guardStep orig_nams
        { st with removedSeqs := st.removedSeqs ∪ res.2,
                  nams := updateNams st.nams res.2 }
  else Except.ok st

/-- The `remove_gaponly` block (`CIAlign.py` lines 383-392): run the
stage (which narrows the position map), exit on an emptied matrix, else
invoke the guard.  Unlike the `remove_insertions` block, this block
performs no union into `removed_cols`. -/
def gaponlyBlock (cfg : PipeConfig) (beh : StageBehaviors)
    (orig_nams : List String) (st : PState) :
    Except (PState × PipeOutcome) PState :=
  if cfg.remove_gaponly then
    let res := beh.gaponly st.arr st.posMap
    let st := { st with arr := res.1,
                        posMap := st.posMap.filter (fun c => c ∉ res.2),
                        events := st.events ++ [PipeEvent.stageRun "remove_gaponly"] }
    if npSize res.1 = 0 then
      Except.error ({ st with events := st.events ++ [PipeEvent.logEmptyError] },
        PipeOutcome.exited)
    else guardStep orig_nams st
  else Except.ok st

/-- The final `writeOutfile` call (`CIAlign.py` line 479). -/
def finalWrite (orig_nams : List String) (st : PState) : PState × PipeOutcome :=
  match writeOutfile st.arr orig_nams st.removedSeqs true with
  | none => ({ st with events := st.events ++ [PipeEvent.writeCrashed] },
    PipeOutcome.crashed)
  | some w => ({ st with events := st.events ++ [PipeEvent.writeMain w.1 w.2] },
    PipeOutcome.finished)

/-- The trimming pipeline of `main`: the initial guard call (line 332),
the five optional stage blocks in their fixed order, and the final
output write (line 479). -/
def runPipeline (cfg : PipeConfig) (beh : StageBehaviors)
    (arr0 : Mat) (nams0 : List String) (posMap0 : List Nat) :
    PState × PipeOutcome :=
  let orig_nams := nams0
  let st0 : PState :=
    { arr := arr0, nams := nams0, removedSeqs := ∅, removedCols := ∅,
      posMap := posMap0, events := [] }
  let run : Except (PState × PipeOutcome) PState := do
    let st ← guardStep orig_nams st0
    let st ← cropBlock cfg beh orig_nams st
    let st ← badlyBlock cfg beh orig_nams st
    let st ← insertionsBlock cfg beh orig_nams st
    let st ← shortBlock cfg beh orig_nams st
    gaponlyBlock cfg beh orig_nams st
  match run with
  | Except.error e => e
  | Except.ok st => finalWrite orig_nams st

/-! ## Theorems -/

/-- The reconciler loop, characterised: when the number of non-removed
names does not exceed the row count, it succeeds, pairing the
non-removed names in order with the rows from the cursor onwards and
reporting the removed names in order. -/
lemma writeOutfileGo_spec (removed : Finset String) (nams : List String) :
    ∀ (i : Nat) (arr : Mat),
      (nams.filter (fun n => n ∉ removed)).length ≤ arr.length - i →
      writeOutfileGo arr removed nams i =
        some ((nams.filter (fun n => n ∉ removed)).zip ((arr.drop i).map String.mk),
              nams.filter (fun n => n ∈ removed)) := by
  induction nams with
  | nil => intro i arr h; simp [writeOutfileGo]
  | cons nam rest ih =>
    intro i arr h
    by_cases hmem : nam ∈ removed
    · rw [List.filter_cons_of_neg (by simp [hmem])] at h ⊢
      rw [List.filter_cons_of_pos (by simp [hmem])]
      simp only [writeOutfileGo, if_neg (by simp [hmem] : ¬ nam ∉ removed)]
      rw [ih i arr h]
    · rw [List.filter_cons_of_pos (by simp [hmem])] at h ⊢
      rw [List.filter_cons_of_neg (by simp [hmem])]
      simp only [writeOutfileGo, if_pos hmem]
      have hlt : i < arr.length := by
        simp only [List.length_cons] at h; omega
      rw [List.getElem?_eq_getElem hlt]
      rw [ih (i + 1) arr (by simp only [List.length_cons] at h; omega)]
      rw [List.drop_eq_getElem_cons hlt]
      simp only [List.map_cons, List.zip_cons_cons]

/-- C1: on the positional-correspondence precondition (as many
non-removed names as matrix rows), `writeOutfile` emits exactly the
non-removed names in original order, each paired with the next
unconsumed row, and reports exactly the removed names (after the fixed
header) when a report file is given. -/
theorem writeOutfile_c1 (arr : Mat) (nams : List String) (removed : Finset String)
    (rmfileGiven : Bool)
    (h : (nams.filter (fun n => n ∉ removed)).length = arr.length) :
    writeOutfile arr nams removed rmfileGiven =
      some ((nams.filter (fun n => n ∉ removed)).zip (arr.map String.mk),
        if rmfileGiven then
          some ("Removed sequences:" :: nams.filter (fun n => n ∈ removed))
        else none) := by
  unfold writeOutfile
  rw [writeOutfileGo_spec removed nams 0 arr (by omega)]
  simp

/-- C1 witness: the concrete scenario of the claim — original names
A, B, C, removed set containing B, matrix rows ACGT and GGTA. -/
theorem writeOutfile_c1_witness :
    writeOutfile [['A','C','G','T'], ['G','G','T','A']] ["A", "B", "C"]
        {"B"} true =
      some ([("A", "ACGT"), ("C", "GGTA")],
        some ["Removed sequences:", "B"]) := by
  rw [writeOutfile_c1 _ _ _ _ (by decide)]
  decide

/-- C10: whenever the number of names outside the removed set is at
most the row count of the matrix, the reconciler loop never indexes the
matrix out of bounds, so `writeOutfile` returns a result rather than
the `IndexError` modelled by `none`. -/
theorem writeOutfile_c10 (arr : Mat) (nams : List String)
    (removed : Finset String) (rmfileGiven : Bool)
    (h : (nams.filter (fun n => n ∉ removed)).length ≤ arr.length) :
    (writeOutfile arr nams removed rmfileGiven).isSome = true := by
  unfold writeOutfile
  rw [writeOutfileGo_spec removed nams 0 arr (by omega)]
  rfl

/-- C10 witness: two names, one removed, two matrix rows — strictly
fewer surviving names than rows, and the write still succeeds. -/
theorem writeOutfile_c10_witness :
    (writeOutfile [['A'], ['C']] ["A", "B"] {"B"} false).isSome = true :=
  writeOutfile_c10 [['A'], ['C']] ["A", "B"] {"B"} false (by decide)

/-- C4: the detector decision on bucket counts follows the exact
priority order — nucleotide when `n` is the (possibly tied) maximum,
else amino-acid when `a` is the (possibly tied) maximum, else the
classification error — and the error branch is reachable exactly when
`x` is the unique strict maximum. -/
theorem seqTypeOfCounts_c4 (n a x : Nat) :
    (n = max n (max a x) → seqTypeOfCounts n a x = some SeqKind.nt) ∧
    (n ≠ max n (max a x) → a = max n (max a x) →
      seqTypeOfCounts n a x = some SeqKind.aa) ∧
    (seqTypeOfCounts n a x = none ↔ (n < x ∧ a < x)) := by
  refine ⟨fun h1 => ?_, fun h1 h2 => ?_, ?_, ?_⟩
  · simp only [seqTypeOfCounts]
    rw [if_pos h1]
  · simp only [seqTypeOfCounts]
    rw [if_neg h1, if_pos h2]
  · intro h
    simp only [seqTypeOfCounts] at h
    by_cases h1 : n = max n (max a x)
    · rw [if_pos h1] at h; simp at h
    · by_cases h2 : a = max n (max a x)
      · rw [if_neg h1, if_pos h2] at h; simp at h
      · omega
  · intro h
    simp only [seqTypeOfCounts]
    rw [if_neg (by omega), if_neg (by omega)]

/-- C4 witness: the two concrete scenarios of the claim — the tie
`n = a = 4, x = 0` classifies nucleotide, and `n = a = 0, x = 5`
reaches the classification error. -/
theorem seqTypeOfCounts_c4_witness :
    seqTypeOfCounts 4 4 0 = some SeqKind.nt ∧ seqTypeOfCounts 0 0 5 = none :=
  ⟨(seqTypeOfCounts_c4 4 4 0).1 (by decide),
   (seqTypeOfCounts_c4 0 0 5).2.2.mpr (by decide)⟩

/-- C5 counterexample: a residue present in both symbol sets is counted
toward both buckets (the three tests are independent `if` statements),
so with the single residue A in both sets the counts are `(1, 1, 0)`
and their sum exceeds the row length — refuting that such a residue is
counted toward the nucleotide bucket only. -/
theorem countBuckets_c5_counterexample :
    countBuckets ['A'] {'A'} {'A'} = (1, 1, 0) ∧
    1 + 1 + 0 ≠ List.length ['A'] := by
  decide

/-- C5 amended: each residue (upper-cased) increments the nucleotide
bucket exactly when it is in the nucleotide set, the amino-acid bucket
exactly when it is in the amino-acid set — both, when it is in both —
and the unknown bucket exactly when it is in neither; consequently
`n + a + x` equals the row length plus the number of residues lying in
both sets. -/
theorem countBuckets_c5_amended (row : List Char) (nucs aas : Finset Char) :
    (countBuckets row nucs aas).1 = row.countP (fun c => decide (c.toUpper ∈ nucs)) ∧
    (countBuckets row nucs aas).2.1 = row.countP (fun c => decide (c.toUpper ∈ aas)) ∧
    (countBuckets row nucs aas).2.2 =
      row.countP (fun c => !decide (c.toUpper ∈ aas) && !decide (c.toUpper ∈ nucs)) ∧
    (countBuckets row nucs aas).1 + (countBuckets row nucs aas).2.1 +
        (countBuckets row nucs aas).2.2 =
      row.length +
        row.countP (fun c => decide (c.toUpper ∈ nucs) && decide (c.toUpper ∈ aas)) := by
  induction row with
  | nil => simp [countBuckets]
  | cons c rest ih =>
    obtain ⟨h1, h2, h3, h4⟩ := ih
    simp only [countBuckets, List.countP_cons, List.length_cons]
    by_cases hn : c.toUpper ∈ nucs <;> by_cases ha : c.toUpper ∈ aas <;>
      simp [hn, ha, h1, h2, h3] <;> omega

/-- C6: the guard behaves exactly as the spec-order guard (raggedness
first, degeneracy second) on every input, and on a matrix whose rows
are genuinely of unequal lengths it fails with the ragged-alignment
error having written nothing. -/
theorem checkArrLength_c6 (arr : Mat) (orig_nams : List String)
    (removed_seqs : Finset String) :
    checkArrLength arr orig_nams removed_seqs =
      checkArrLengthSpecOrder arr orig_nams removed_seqs ∧
    (isRagged arr = true →
      checkArrLength arr orig_nams removed_seqs = (none, GuardResult.ragged)) := by
  cases arr with
  | nil => simp [checkArrLength, checkArrLengthSpecOrder, isRagged, npShape]
  | cons r rs =>
    by_cases h : rs.all (fun x => x.length == r.length) <;>
      simp [checkArrLength, checkArrLengthSpecOrder, isRagged, npShape, h]

/-- C6 witness: a two-row ragged matrix makes the guard fail with the
ragged error and no output write. -/
theorem checkArrLength_c6_witness :
    checkArrLength [['A'], ['A', 'C']] ["A", "B"] ∅ =
      (none, GuardResult.ragged) :=
  (checkArrLength_c6 [['A'], ['A', 'C']] ["A", "B"] ∅).2 (by decide)

/-- The name filtering of `updateNams` is idempotent. -/
lemma updateNams_idem (l : List String) (r : Finset String) :
    updateNams (updateNams l r) r = updateNams l r := by
  induction l with
  | nil => rfl
  | cons nam rest ih =>
    by_cases h : nam ∈ r <;> simp [updateNams, h, ih]

/-- C8: re-applying an already-applied removal set is a no-op — both
for sequence removal (name filtering plus set union) and for column
removal (position-map filtering plus set union). -/
theorem tracker_c8 (r : Finset String) (rc : Finset Nat) (st : TrackerState) :
    dropSequences r (dropSequences r st) = dropSequences r st ∧
    dropColumns rc (dropColumns rc st) = dropColumns rc st := by
  cases st
  constructor
  · simp [dropSequences, updateNams_idem, Finset.union_assoc]
  · simp [dropColumns, List.filter_filter, Finset.union_assoc]

/-- C7 counterexample: on empty input the loader raises no parse error
at all — it returns the empty alignment and the empty name list. -/
theorem FastaToArray_c7_counterexample :
    FastaToArray [] = Except.ok (([] : List (List Char)), ([] : List String)) :=
  rfl

/-- C7 amended: on empty input the loader returns an empty alignment
without error (the surrounding `main` then crashes on
`len(orig_arr[0])` before any output is written, modelled by
`initRelativePositions` returning `none`); on nonempty input whose
first line is not a header line the loader fails with an untyped
runtime error — an index error for a blank line, a type error for a
residue line — never with a structured parse error. -/
theorem FastaToArray_c7_amended :
    FastaToArray [] = Except.ok (([] : List (List Char)), ([] : List String)) ∧
    initRelativePositions [] = none ∧
    (∀ (l : String) (ls : List String),
      (pyStrip l).toList.head? ≠ some '>' →
      ∃ e, FastaToArray (l :: ls) = Except.error e) := by
  refine ⟨rfl, rfl, fun l ls h => ?_⟩
  cases hm : (pyStrip l).toList with
  | nil =>
    have hm2 : (pyStrip l).data = [] := hm
    exact ⟨LoadError.indexError, by simp [FastaToArray, fastaLoop, hm2]⟩
  | cons c cs =>
    have hm2 : (pyStrip l).data = c :: cs := hm
    have hc : ¬ c = '>' := by
      rw [hm] at h; simpa using h
    exact ⟨LoadError.typeError, by simp [FastaToArray, fastaLoop, hm2, hc]⟩

/-- C7 witness: an input consisting of one blank line is nonempty and
has no header line, and the loader fails with a runtime error. -/
theorem FastaToArray_c7_witness :
    ∃ e, FastaToArray [""] = Except.error e :=
  FastaToArray_c7_amended.2.2 "" [] (by decide)

/-- C9 counterexample: a residue line before the first header is not
silently discarded — it makes the loader crash with the type error
raised by extending the string sentinel with a list. -/
theorem FastaToArray_c9_counterexample :
    FastaToArray ["AC", ">X", "GG"] = Except.error LoadError.typeError := by
  rfl

/-- C9 amended: for every input whose first line strips to a nonempty
residue (non-header) line, the loader raises the type error at that
line and returns nothing; leading residue content is never silently
discarded. -/
theorem FastaToArray_c9_amended (l : String) (ls : List String) (c : Char)
    (h1 : (pyStrip l).toList.head? = some c) (h2 : c ≠ '>') :
    FastaToArray (l :: ls) = Except.error LoadError.typeError := by
  cases hm : (pyStrip l).toList with
  | nil => rw [hm] at h1; cases h1
  | cons c0 cs =>
    have hm2 : (pyStrip l).data = c0 :: cs := hm
    have hc0 : c0 = c := by rw [hm] at h1; simpa using h1
    simp [FastaToArray, fastaLoop, hm2, hc0, h2]

/-- C9 witness: the single residue line TT makes the loader fail with
the type error. -/
theorem FastaToArray_c9_witness :
    FastaToArray ["TT"] = Except.error LoadError.typeError :=
  FastaToArray_c9_amended "TT" [] 'T' (by decide) (by decide)

/-- Configuration enabling only the remove-gap-only stage. -/
def gaponlyOnlyCfg : PipeConfig := ⟨false, false, false, false, true⟩

/-- Collaborators for the C2 run: the gap-only stage removes original
column 1 from the single-row alignment ACG, honouring the stage
contract (new matrix, removal set of original column indices). -/
def gaponlyStage : StageBehaviors :=
  { crop := fun a _ => a,
    badly := fun a _ => (a, ∅),
    insertions := fun a _ => (a, ∅),
    short := fun a _ => (a, ∅),
    gaponly := fun _ _ => ([['A', 'G']], {1}) }

/-- C2 (evaluation at the failing input): running only the
remove-gap-only stage on the one-row alignment ACG (original width 3)
with a collaborator removing original column 1, the run finishes
normally, the position map shrinks to `[0, 2]`, but `removed_cols`
stays empty — the `remove_gaponly` block of `main` has no
`removed_cols = removed_cols | r` union, unlike the
`remove_insertions` block — so
`len(PositionMap) + |RemovedColumns|` is 2, not the original width. -/
theorem pipeline_c2_bug :
    (runPipeline gaponlyOnlyCfg gaponlyStage [['A', 'C', 'G']] ["s1"] [0, 1, 2]).2 =
      PipeOutcome.finished ∧
    (runPipeline gaponlyOnlyCfg gaponlyStage [['A', 'C', 'G']] ["s1"] [0, 1, 2]).1.posMap =
      [0, 2] ∧
    (runPipeline gaponlyOnlyCfg gaponlyStage [['A', 'C', 'G']] ["s1"] [0, 1, 2]).1.removedCols =
      ∅ ∧
    (runPipeline gaponlyOnlyCfg gaponlyStage [['A', 'C', 'G']] ["s1"] [0, 1, 2]).1.posMap.length +
        (runPipeline gaponlyOnlyCfg gaponlyStage [['A', 'C', 'G']] ["s1"] [0, 1, 2]).1.removedCols.card ≠
      List.length ['A', 'C', 'G'] := by
  decide

/-- Configuration with every stage enabled. -/
def allStagesCfg : PipeConfig := ⟨true, true, true, true, true⟩

/-- Collaborators for the C3 counterexample run: the crop-ends stage
empties the matrix; every other stage is the identity. -/
def emptyingCropStage : StageBehaviors :=
  { crop := fun _ _ => [],
    badly := fun a _ => (a, ∅),
    insertions := fun a _ => (a, ∅),
    short := fun a _ => (a, ∅),
    gaponly := fun a _ => (a, ∅) }

/-- C3 counterexample: with all stages enabled and the crop-ends stage
emptying the matrix, the pipeline logs the empty-alignment message and
exits — writing no output whatsoever and raising no
empty-alignment error — and no later stage runs. -/
theorem pipeline_c3_counterexample :
    (runPipeline allStagesCfg emptyingCropStage [['A']] ["s1"] [0]).2 =
      PipeOutcome.exited ∧
    (runPipeline allStagesCfg emptyingCropStage [['A']] ["s1"] [0]).1.events =
      [PipeEvent.stageRun "crop_ends", PipeEvent.logEmptyError] := by
  decide

/-- C3 amended: when the crop-ends stage (and likewise the
remove-insertions, remove-short and remove-gap-only stages, which share
the same `arr.size == 0` exit) empties the matrix, the pipeline logs
the empty-alignment message and exits without any output write and
without the empty-alignment error, running no later stage; only the
remove-badly-aligned stage follows the claimed behaviour — a
best-effort output write followed by the empty-alignment error, with no
later stage running. -/
theorem pipeline_c3_amended :
    (∀ (cfg : PipeConfig) (beh : StageBehaviors) (arr : Mat)
        (nams : List String) (posMap : List Nat),
      cfg.crop_ends = true →
      checkArrLength arr nams ∅ = (none, GuardResult.ok) →
      npSize (beh.crop arr nams) = 0 →
      runPipeline cfg beh arr nams posMap =
        ({ arr := beh.crop arr nams, nams := nams, removedSeqs := ∅,
           removedCols := ∅, posMap := posMap,
           events := [PipeEvent.stageRun "crop_ends", PipeEvent.logEmptyError] },
         PipeOutcome.exited)) ∧
    (∀ (cfg : PipeConfig) (beh : StageBehaviors) (arr : Mat)
        (nams : List String) (posMap : List Nat)
        (w : List (String × String) × Option (List String)),
      cfg.crop_ends = false →
      cfg.remove_badlyaligned = true →
      checkArrLength arr nams ∅ = (none, GuardResult.ok) →
      0 ∈ npShape (beh.badly arr nams).1 →
      writeOutfile (beh.badly arr nams).1 nams (∅ ∪ (beh.badly arr nams).2) true =
        some w →
      runPipeline cfg beh arr nams posMap =
        ({ arr := (beh.badly arr nams).1,
           nams := updateNams nams (beh.badly arr nams).2,
           removedSeqs := ∅ ∪ (beh.badly arr nams).2, removedCols := ∅,
           posMap := posMap,
           events := [PipeEvent.stageRun "remove_badlyaligned",
             PipeEvent.writeMain w.1 w.2] },
         PipeOutcome.emptyAlignmentError)) := by
  constructor
  · intro cfg beh arr nams posMap h1 h2 h3
    simp [runPipeline, guardStep, cropBlock, h1, h2, h3, bind, Except.bind]
  · intro cfg beh arr nams posMap w h1 h2 h3 h4 h5
    rw [Finset.empty_union] at h5
    have hguard2 : checkArrLength (beh.badly arr nams).1 nams
        ((beh.badly arr nams).2) = (some w, GuardResult.emptyAlignment) := by
      unfold checkArrLength
      rw [if_pos h4, h5]
    simp [runPipeline, guardStep, cropBlock, badlyBlock, h1, h2, h3, hguard2,
      bind, Except.bind]

/-- C3 witness: concrete runs of both amended scenarios — a crop-ends
stage emptying the one-row alignment exits without writing, and a
remove-badly-aligned stage removing the only sequence writes the
best-effort output (empty records, full report) and stops with the
empty-alignment error. -/
theorem pipeline_c3_witness :
    runPipeline ⟨true, false, false, false, false⟩ emptyingCropStage
        [['A']] ["s1"] [0] =
      ({ arr := [], nams := ["s1"], removedSeqs := ∅, removedCols := ∅,
         posMap := [0],
         events := [PipeEvent.stageRun "crop_ends", PipeEvent.logEmptyError] },
       PipeOutcome.exited) ∧
    runPipeline ⟨false, true, false, false, false⟩
        { crop := fun a _ => a, badly := fun _ _ => ([], {"s1"}),
          insertions := fun a _ => (a, ∅), short := fun a _ => (a, ∅),
          gaponly := fun a _ => (a, ∅) } [['A']] ["s1"] [0] =
      ({ arr := [], nams := updateNams ["s1"] {"s1"},
         removedSeqs := ∅ ∪ {"s1"}, removedCols := ∅, posMap := [0],
         events := [PipeEvent.stageRun "remove_badlyaligned",
           PipeEvent.writeMain [] (some ["Removed sequences:", "s1"])] },
       PipeOutcome.emptyAlignmentError) :=
  ⟨pipeline_c3_amended.1 ⟨true, false, false, false, false⟩ emptyingCropStage
      [['A']] ["s1"] [0] rfl (by decide) (by decide),
   pipeline_c3_amended.2 ⟨false, true, false, false, false⟩
      { crop := fun a _ => a, badly := fun _ _ => ([], {"s1"}),
        insertions := fun a _ => (a, ∅), short := fun a _ => (a, ∅),
        gaponly := fun a _ => (a, ∅) } [['A']] ["s1"] [0]
      ([], some ["Removed sequences:", "s1"]) rfl rfl (by decide) (by decide)
      (by decide)⟩

end CIAlign
